import Mathlib

/-!
Shallow embedding of `dbus_digitalinputs.py`: a service that monitors digital
input lines, counts pulses (rising edges after polarity inversion) and
publishes per-line fields (`/Count`, `/Aggregate`, `/State`, `/Type`) on a
bus, with per-line persisted settings (function, inputtype, rate, count,
invert).

Machine integers are modelled as `Nat` with explicit `% MAXCOUNT` where the
source wraps; the floating-point rate/aggregate are modelled as `Rat` (only
their exact assignment relations are at stake in the claims).  Fallible
operations (a dictionary lookup that can raise `KeyError`, a dbus item
assignment on a path that was never added) return `Option`/`Except`.
-/

/-- `MAXCOUNT = 2**31-1` (line 20 of the source). -/
def MAXCOUNT : Nat := 2 ^ 31 - 1

/-- `INPUT_FUNCTION_COUNTER = 1` (line 23). -/
def INPUT_FUNCTION_COUNTER : Nat := 1

/-- `INPUT_FUNCTION_INPUT = 2` (line 24). -/
def INPUT_FUNCTION_INPUT : Nat := 2

/-- The fixed catalog `INPUTTYPES` (lines 34-41, append-only). -/
def INPUTTYPES : List String :=
  ["Door alarm", "Bilge alarm", "Burglar alarm", "Smoke alarm", "Fire alarm", "CO2 alarm"]

/-- `MAXTYPE = len(INPUTTYPES)` (line 42). -/
def MAXTYPE : Nat := INPUTTYPES.length

/-- The per-line persisted settings record (`supported_settings`, lines
198-204): `function` in 0..2, `inputtype` in 0..MAXTYPE, `rate` a scale
factor (default 0.001), `count` in 0..MAXCOUNT, `invert` a flag. -/
structure Settings where
  function : Nat
  inputtype : Nat
  rate : Rat
  count : Nat
  invert : Bool
  deriving Repr, DecidableEq

/-- The published handle of one registered line (a `VeDbusService`): the
`/Count` path is always added; `/Aggregate` only for counters; `/State` and
`/Type` only for level sensors.  A field is `none` when its path was never
added to the service. -/
structure Service where
  count : Nat
  aggregate : Option Rat
  state : Option Nat
  itype : Option String
  deriving Repr, DecidableEq

/-- `INPUTTYPES[min(t, MAXTYPE-1)]` — the clamped catalog lookup used at
lines 173 and 195. -/
def clampedType (t : Nat) : String := INPUTTYPES.getD (min t (MAXTYPE - 1)) ""

/-- `dbusservice['/Aggregate'] = v`: a `VeDbusService` item assignment
raises when the path was never added, hence `none` in that case. -/
def Service.setAggregate (sv : Service) (v : Rat) : Option Service :=
  match sv.aggregate with
  | none => none
  | some _ => some { sv with aggregate := some v }

/-- `dbusservice['/State'] = v`, failing when the `/State` path is absent. -/
def Service.setState (sv : Service) (v : Nat) : Option Service :=
  match sv.state with
  | none => none
  | some _ => some { sv with state := some v }

/-- `dbusservice['/Type'] = v`, failing when the `/Type` path is absent. -/
def Service.setItype (sv : Service) (v : String) : Option Service :=
  match sv.itype with
  | none => none
  | some _ => some { sv with itype := some v }

/-- `register_gpio` (lines 148-174), restricted to the published data paths:
seed `/Count` from the persisted count; for a counter add `/Aggregate =
count * rate`; for a level sensor add `/State` (initial value: the raw
`invert` setting) and `/Type` (the clamped catalog entry). -/
def register_gpio (f : Nat) (s : Settings) : Service :=
  { count := s.count
    aggregate := if f = INPUT_FUNCTION_COUNTER then some ((s.count : Rat) * s.rate) else none
    state := if f = INPUT_FUNCTION_INPUT then some (cond s.invert 1 0) else none
    itype := if f = INPUT_FUNCTION_INPUT then some (clampedType s.inputtype) else none }

/-- The state of one line: its settings record, the published service handle
(`services[gpio]`, `none` when absent from the dict) and whether the line is
registered with the pulse counter (`pulses.registered(gpio)`). -/
structure LineState where
  settings : Settings
  service : Option Service
  pulsesRegistered : Bool
  deriving Repr, DecidableEq

/-- The effect of `register_gpio` on a line's state: create the service
entry and register with the pulse counter. -/
def registerLine (st : LineState) (f : Nat) : LineState :=
  { st with service := some (register_gpio f st.settings), pulsesRegistered := true }

/-- `unregister_gpio` (lines 176-180): unregister from the pulse counter,
destroy the service and delete it from the dict. -/
def unregister_gpio (st : LineState) : LineState :=
  { st with service := none, pulsesRegistered := false }

/-- `handle_setting_change` for `setting == 'function'` (lines 184-192),
after the settings store has already taken the new value: if the new value
is truthy, unregister first when already registered, then register under the
new function; if it is zero and the old one was truthy, unregister. -/
def handle_function_change (st : LineState) (nw : Nat) : LineState :=
  let old := st.settings.function
  let st1 : LineState := { st with settings := { st.settings with function := nw } }
  if nw ≠ 0 then
    registerLine (if st1.pulsesRegistered then unregister_gpio st1 else st1) nw
  else if old ≠ 0 then
    unregister_gpio st1
  else
    st1

/-- `handle_setting_change` for `setting == 'inputtype'` (lines 193-195):
when the value changed, `services[inp]['/Type'] = INPUTTYPES[min(int(new),
MAXTYPE-1)]` with no guard — a missing services entry or a missing `/Type`
path raises. -/
def handle_inputtype_change (st : LineState) (nw : Nat) : Except String LineState :=
  let old := st.settings.inputtype
  let st1 : LineState := { st with settings := { st.settings with inputtype := nw } }
  if nw ≠ old then
    match st1.service with
    | none => Except.error "KeyError: services[inp]"
    | some sv =>
      match Service.setItype sv (clampedType nw) with
      | none => Except.error "KeyError: /Type"
      | some sv1 => Except.ok { st1 with service := some sv1 }
  else
    Except.ok st1

/-- `handle_setting_change` for `setting == 'rate'`: the handler at lines
183-195 has no branch for it, so only the stored setting changes; no
published field is touched. -/
def handle_rate_change (st : LineState) (nw : Rat) : LineState :=
  { st with settings := { st.settings with rate := nw } }

/-- Startup (lines 197-207): build the settings, and register the line when
its persisted `function` is positive. -/
def initLine (s : Settings) : LineState :=
  let st : LineState := { settings := s, service := none, pulsesRegistered := false }
  if 0 < s.function then registerLine st s.function else st

/-- One iteration of the `poll` loop body (lines 215-235) for one event
`(inp, level)`, on that line's state.  A missing services entry drops the
event (`continue`); otherwise the level is xored with the invert flag, a
truthy result increments `/Count` modulo `MAXCOUNT` (and recomputes
`/Aggregate` for a counter), and a level-sensor line publishes
`/State = bool(level)*1`.  `none` models an exception escaping the loop
(fatal). -/
def pollStep (st : LineState) (levelIn : Nat) : Option LineState :=
  match st.service with
  | none => some st
  | some sv =>
    let function := st.settings.function
    let invert : Nat := cond st.settings.invert 1 0
    let level := levelIn ^^^ invert
    let afterCount : Option Service :=
      if level ≠ 0 then
        let v := (sv.count + 1) % MAXCOUNT
        let sv1 : Service := { sv with count := v }
        if function = INPUT_FUNCTION_COUNTER then
          Service.setAggregate sv1 ((v : Rat) * st.settings.rate)
        else
          some sv1
      else
        some sv
    afterCount.bind (fun sv1 =>
      (if function = INPUT_FUNCTION_INPUT then
          Service.setState sv1 (cond (level ≠ 0) 1 0)
        else
          some sv1).map (fun sv2 => { st with service := some sv2 }))

/-- Folding the poll body over a finite prefix of one line's event stream. -/
def pollList (st : LineState) (evs : List Nat) : Option LineState :=
  match evs with
  | [] => some st
  | l :: ls =>
    match pollStep st l with
    | none => none
    | some st1 => pollList st1 ls

/-- The number of events of a stream prefix whose post-inversion level is
truthy — the events that increment `/Count`. -/
def risingCount (invert : Bool) (evs : List Nat) : Nat :=
  (evs.filter (fun l => l ^^^ cond invert 1 0 ≠ 0)).length

/-- `save_counters` (lines 250-254) restricted to one line: when the
`function` setting is positive, copy the live `/Count` into the persisted
`count` setting (raising when the services entry is absent); otherwise leave
the settings untouched. -/
def save_counters_line (st : LineState) : Option Settings :=
  if 0 < st.settings.function then
    match st.service with
    | none => none
    | some sv => some { st.settings with count := sv.count }
  else
    some st.settings

/-- The whole system seen by the poll loop: every line's state, indexed by
gpio number. -/
def pollStepSys (sys : Nat → LineState) (inp : Nat) (levelIn : Nat) :
    Option (Nat → LineState) :=
  match pollStep (sys inp) levelIn with
  | none => none
  | some st => some (fun j => if j = inp then st else sys j)

/-- A service handle has exactly the paths `register_gpio` adds for function
`f`: `/Aggregate` iff counter, `/State` and `/Type` iff level sensor. -/
def shaped (f : Nat) (sv : Service) : Prop :=
  sv.aggregate.isSome = decide (f = INPUT_FUNCTION_COUNTER) ∧
  sv.state.isSome = decide (f = INPUT_FUNCTION_INPUT) ∧
  sv.itype.isSome = decide (f = INPUT_FUNCTION_INPUT)

instance (f : Nat) (sv : Service) : Decidable (shaped f sv) := by
  unfold shaped; infer_instance

/-- The live published count of a line, when a service exists. -/
def liveCount (st : LineState) : Option Nat := st.service.map Service.count

/-- The registration invariant: a line is registered with the pulse counter
iff its function setting is non-disabled and a services entry exists. -/
def RegInv (st : LineState) : Prop :=
  st.pulsesRegistered = true ↔ (st.settings.function ≠ 0 ∧ st.service.isSome = true)

instance (st : LineState) : Decidable (RegInv st) := by
  unfold RegInv; infer_instance

/-- The aggregate invariant: on a counter line with a service entry,
`/Aggregate` equals `/Count` times the rate setting. -/
def AggInv (st : LineState) : Prop :=
  st.settings.function = INPUT_FUNCTION_COUNTER →
    ∀ sv : Service, st.service = some sv →
      sv.aggregate = some ((sv.count : Rat) * st.settings.rate)

/-! ## Helper definitions and lemmas for the proofs -/

/-- The service record produced by one poll iteration on a present service:
spells out each published field of the result. -/
def steppedService (s : Settings) (sv : Service) (l : Nat) : Service :=
  { count := if l ^^^ cond s.invert 1 0 ≠ 0 then (sv.count + 1) % MAXCOUNT else sv.count
    aggregate := if l ^^^ cond s.invert 1 0 ≠ 0 ∧ s.function = INPUT_FUNCTION_COUNTER then
        some ((((sv.count + 1) % MAXCOUNT : Nat) : Rat) * s.rate)
      else sv.aggregate
    state := if s.function = INPUT_FUNCTION_INPUT then
        some (cond (l ^^^ cond s.invert 1 0 ≠ 0) 1 0)
      else sv.state
    itype := sv.itype }

theorem pollStep_eq (s : Settings) (sv : Service) (r : Bool) (l : Nat)
    (hsh : shaped s.function sv) :
    pollStep ⟨s, some sv, r⟩ l = some ⟨s, some (steppedService s sv l), r⟩ := by
  obtain ⟨ha, hs, ht⟩ := hsh
  obtain ⟨c0, agg, stt, ity⟩ := sv
  by_cases hf1 : s.function = INPUT_FUNCTION_COUNTER <;>
    by_cases hf2 : s.function = INPUT_FUNCTION_INPUT
  · rw [hf1] at hf2
    simp [INPUT_FUNCTION_COUNTER, INPUT_FUNCTION_INPUT] at hf2
  · rw [hf1] at ha
    simp at ha
    obtain ⟨a, hA⟩ := Option.isSome_iff_exists.mp ha
    by_cases hl : l ^^^ cond s.invert 1 0 ≠ 0 <;>
      simp [pollStep, steppedService, Service.setAggregate, Service.setState, hl, hf1, hA,
        INPUT_FUNCTION_COUNTER, INPUT_FUNCTION_INPUT]
  · rw [hf2] at hs
    simp at hs
    obtain ⟨b, hB⟩ := Option.isSome_iff_exists.mp hs
    by_cases hl : l ^^^ cond s.invert 1 0 ≠ 0 <;>
      simp [pollStep, steppedService, Service.setAggregate, Service.setState, hl, hf2, hB,
        INPUT_FUNCTION_COUNTER, INPUT_FUNCTION_INPUT]
  · by_cases hl : l ^^^ cond s.invert 1 0 ≠ 0 <;>
      simp [pollStep, steppedService, Service.setAggregate, Service.setState, hl, hf1, hf2]

theorem MAXCOUNT_pos : 0 < MAXCOUNT := by decide

theorem steppedService_count (s : Settings) (sv : Service) (l : Nat) :
    (steppedService s sv l).count =
      if l ^^^ cond s.invert 1 0 ≠ 0 then (sv.count + 1) % MAXCOUNT else sv.count := rfl

theorem steppedService_shaped (s : Settings) (sv : Service) (l : Nat)
    (hsh : shaped s.function sv) : shaped s.function (steppedService s sv l) := by
  obtain ⟨ha, hs, ht⟩ := hsh
  refine ⟨?_, ?_, ?_⟩ <;> simp only [steppedService]
  · by_cases h : (l ^^^ cond s.invert 1 0 ≠ 0) ∧ s.function = INPUT_FUNCTION_COUNTER
    · rw [if_pos h, h.2]
      simp
    · rw [if_neg h]
      exact ha
  · by_cases h : s.function = INPUT_FUNCTION_INPUT
    · rw [if_pos h, h]
      simp
    · rw [if_neg h]
      exact hs
  · exact ht

theorem steppedService_count_lt (s : Settings) (sv : Service) (l : Nat)
    (hc : sv.count < MAXCOUNT) : (steppedService s sv l).count < MAXCOUNT := by
  rw [steppedService_count]
  by_cases h : l ^^^ cond s.invert 1 0 ≠ 0
  · rw [if_pos h]; exact Nat.mod_lt _ MAXCOUNT_pos
  · rw [if_neg h]; exact hc

theorem risingCount_nil (i : Bool) : risingCount i [] = 0 := rfl

theorem risingCount_cons (i : Bool) (l : Nat) (ls : List Nat) :
    risingCount i (l :: ls) =
      (if l ^^^ cond i 1 0 ≠ 0 then 1 else 0) + risingCount i ls := by
  unfold risingCount
  by_cases h : l ^^^ cond i 1 0 ≠ 0
  · rw [if_pos h, List.filter_cons, if_pos (decide_eq_true h), List.length_cons]
    omega
  · rw [if_neg h, List.filter_cons,
      if_neg (by rw [decide_eq_false h]; exact Bool.false_ne_true)]
    omega

theorem pollList_count (s : Settings) (r : Bool) (evs : List Nat) :
    ∀ sv : Service, shaped s.function sv → sv.count < MAXCOUNT →
      ∃ sv2 : Service,
        pollList ⟨s, some sv, r⟩ evs = some ⟨s, some sv2, r⟩ ∧
        shaped s.function sv2 ∧
        sv2.count = (sv.count + risingCount s.invert evs) % MAXCOUNT ∧
        sv2.count < MAXCOUNT := by
  induction evs with
  | nil =>
    intro sv hsh hc
    exact ⟨sv, rfl, hsh, by rw [risingCount_nil, Nat.add_zero, Nat.mod_eq_of_lt hc], hc⟩
  | cons l ls ih =>
    intro sv hsh hc
    obtain ⟨sv2, h1, h2, h3, h4⟩ :=
      ih (steppedService s sv l) (steppedService_shaped s sv l hsh)
        (steppedService_count_lt s sv l hc)
    refine ⟨sv2, ?_, h2, ?_, h4⟩
    · show pollList ⟨s, some sv, r⟩ (l :: ls) = _
      unfold pollList
      rw [pollStep_eq s sv r l hsh]
      exact h1
    · rw [h3, steppedService_count, risingCount_cons]
      by_cases h : l ^^^ cond s.invert 1 0 ≠ 0
      · rw [if_pos h, if_pos h, Nat.mod_add_mod]
        congr 1
        omega
      · rw [if_neg h, if_neg h]
        congr 1
        omega

/-! ## Claims -/

/-- Claim C1: for every line processed by the poll loop, after N events
whose post-inversion level is truthy the published `/Count` equals
`(initial_count + N) mod (2^31 - 1)`, and events whose post-inversion level
is falsy leave `/Count` unchanged, regardless of interleaving. -/
theorem C1_count_modular (s : Settings) (sv : Service) (r : Bool) (evs : List Nat)
    (hsh : shaped s.function sv) (hc : sv.count < MAXCOUNT) :
    ∃ sv2 : Service,
      pollList ⟨s, some sv, r⟩ evs = some ⟨s, some sv2, r⟩ ∧
      sv2.count = (sv.count + risingCount s.invert evs) % MAXCOUNT ∧
      (risingCount s.invert evs = 0 → sv2.count = sv.count) := by
  obtain ⟨sv2, h1, _, h3, _⟩ := pollList_count s r evs sv hsh hc
  refine ⟨sv2, h1, h3, fun h0 => ?_⟩
  rw [h3, h0, Nat.add_zero, Nat.mod_eq_of_lt hc]

/-- Witness for C1: counter line, initial count 5, events 1,0,1,1 with no
inversion: three rising events, final count (5+3) mod (2^31-1) = 8. -/
theorem C1_count_modular_witness :
    ∃ sv2 : Service,
      pollList ⟨⟨1, 0, 1, 5, false⟩, some ⟨5, some 5, none, none⟩, true⟩ [1, 0, 1, 1] =
        some ⟨⟨1, 0, 1, 5, false⟩, some sv2, true⟩ ∧
      sv2.count = ((5 : Nat) + risingCount false [1, 0, 1, 1]) % MAXCOUNT ∧
      (risingCount false [1, 0, 1, 1] = 0 → sv2.count = 5) :=
  C1_count_modular ⟨1, 0, 1, 5, false⟩ ⟨5, some 5, none, none⟩ true [1, 0, 1, 1]
    (by decide) (by decide)

/-- Counterexample to claim C2: the persisted count setting admits the seed
2^31-1 = MAXCOUNT, and a line whose `/Count` has reached that wrap bound is
incremented to `(MAXCOUNT+1) % MAXCOUNT = 1`, not to zero. -/
theorem C2_counterexample :
    Option.bind
        (pollStep ⟨⟨1, 0, 1, MAXCOUNT, false⟩,
          some ⟨MAXCOUNT, some ((MAXCOUNT : Rat) * 1), none, none⟩, true⟩ 1)
        liveCount = some 1 ∧
    (1 : Nat) ≠ 0 := by
  constructor
  · decide
  · decide

/-- Claim C2 (amended): `/Count` never exceeds the wrap bound `2^31 - 1`
(any increment lands strictly below it); when the count has reached
`2^31 - 2` — the largest value an increment can produce — the next increment
resets it to zero; a count seeded at the bound `2^31 - 1` itself (admitted
by the persisted setting) is incremented to 1, not 0. -/
theorem C2_wrap_amended (s : Settings) (sv : Service) (r : Bool) (l : Nat)
    (hsh : shaped s.function sv) (hc : sv.count ≤ MAXCOUNT) :
    ∃ sv1 : Service,
      pollStep ⟨s, some sv, r⟩ l = some ⟨s, some sv1, r⟩ ∧
      sv1.count ≤ MAXCOUNT ∧
      (l ^^^ cond s.invert 1 0 ≠ 0 →
        sv1.count < MAXCOUNT ∧
        (sv.count = MAXCOUNT - 1 → sv1.count = 0) ∧
        (sv.count = MAXCOUNT → sv1.count = 1)) := by
  refine ⟨steppedService s sv l, pollStep_eq s sv r l hsh, ?_, ?_⟩
  · rw [steppedService_count]
    by_cases h : l ^^^ cond s.invert 1 0 ≠ 0
    · rw [if_pos h]
      exact Nat.le_of_lt (Nat.mod_lt _ MAXCOUNT_pos)
    · rw [if_neg h]
      exact hc
  · intro h
    rw [steppedService_count, if_pos h]
    refine ⟨Nat.mod_lt _ MAXCOUNT_pos, fun he => ?_, fun he => ?_⟩
    · rw [he]
      have : MAXCOUNT - 1 + 1 = MAXCOUNT := Nat.succ_pred_eq_of_pos MAXCOUNT_pos
      rw [this, Nat.mod_self]
    · rw [he, Nat.add_mod_left, Nat.mod_eq_of_lt (by decide)]

/-- Witness for C2 (amended): counter at 2^31-2, one rising event. -/
theorem C2_wrap_amended_witness :
    ∃ sv1 : Service,
      pollStep ⟨⟨1, 0, 1, 0, false⟩, some ⟨MAXCOUNT - 1, some 0, none, none⟩, true⟩ 1 =
        some ⟨⟨1, 0, 1, 0, false⟩, some sv1, true⟩ ∧
      sv1.count ≤ MAXCOUNT ∧
      ((1 : Nat) ^^^ cond false 1 0 ≠ 0 →
        sv1.count < MAXCOUNT ∧
        (MAXCOUNT - 1 = MAXCOUNT - 1 → sv1.count = 0) ∧
        (MAXCOUNT - 1 = MAXCOUNT → sv1.count = 1)) :=
  C2_wrap_amended ⟨1, 0, 1, 0, false⟩ ⟨MAXCOUNT - 1, some 0, none, none⟩ true 1
    (by decide) (by decide)

/-- Counterexample to claim C3: toggling `inverted` DOES alter which
physical edges increment `/Count`.  The same physical event (level 1) on the
same counter service increments the count when `inverted` is false but
leaves it unchanged when `inverted` is true. -/
theorem C3_counterexample :
    Option.bind
        (pollStep ⟨⟨1, 0, 1, 0, false⟩, some ⟨0, some 0, none, none⟩, true⟩ 1)
        liveCount = some 1 ∧
    Option.bind
        (pollStep ⟨⟨1, 0, 1, 0, true⟩, some ⟨0, some 0, none, none⟩, true⟩ 1)
        liveCount = some 0 := by
  constructor
  · decide
  · decide

/-- Claim C3 (amended): for every event on a level-sensor line the published
`/State` equals the event level XOR the inverted flag, so toggling
`inverted` flips the published `/State` for every subsequent edge; but the
toggle also flips which physical levels increment `/Count` — an event
increments exactly when its post-inversion level is truthy — while the
modular increment arithmetic itself is unchanged. -/
theorem C3_state_xor_amended (s : Settings) (sv sv' : Service) (r : Bool) (l : Nat)
    (hf : s.function = INPUT_FUNCTION_INPUT) (hl : l ≤ 1)
    (hsh : shaped s.function sv) (hsh' : shaped s.function sv') :
    ∃ sv1 sv1' : Service,
      pollStep ⟨s, some sv, r⟩ l = some ⟨s, some sv1, r⟩ ∧
      pollStep ⟨{ s with invert := !s.invert }, some sv', r⟩ l =
        some ⟨{ s with invert := !s.invert }, some sv1', r⟩ ∧
      sv1.state = some (cond (l ^^^ cond s.invert 1 0 ≠ 0) 1 0) ∧
      sv1'.state = some (1 - cond (l ^^^ cond s.invert 1 0 ≠ 0) 1 0) ∧
      sv1.count = (if l ^^^ cond s.invert 1 0 ≠ 0 then (sv.count + 1) % MAXCOUNT
        else sv.count) ∧
      sv1'.count = (if l ^^^ cond s.invert 1 0 ≠ 0 then sv'.count
        else (sv'.count + 1) % MAXCOUNT) := by
  have hflip : (l ^^^ cond (!s.invert) 1 0 ≠ 0) ↔ ¬(l ^^^ cond s.invert 1 0 ≠ 0) := by
    cases s.invert <;> interval_cases l <;> decide
  have hcond : cond (l ^^^ cond (!s.invert) 1 0 ≠ 0) 1 0 =
      1 - cond (l ^^^ cond s.invert 1 0 ≠ 0) (1 : Nat) 0 := by
    cases s.invert <;> interval_cases l <;> decide
  refine ⟨steppedService s sv l, steppedService { s with invert := !s.invert } sv' l,
    pollStep_eq s sv r l hsh, pollStep_eq { s with invert := !s.invert } sv' r l hsh',
    ?_, ?_, steppedService_count s sv l, ?_⟩
  · show (if s.function = INPUT_FUNCTION_INPUT then _ else sv.state) = _
    rw [if_pos hf]
  · show (if s.function = INPUT_FUNCTION_INPUT then
        some (cond (l ^^^ cond (!s.invert) 1 0 ≠ 0) 1 0) else sv'.state) = _
    rw [if_pos hf, hcond]
  · show (if l ^^^ cond (!s.invert) 1 0 ≠ 0 then (sv'.count + 1) % MAXCOUNT
        else sv'.count) = _
    by_cases h : l ^^^ cond s.invert 1 0 ≠ 0
    · rw [if_pos h, if_neg (fun hx => (hflip.mp hx) h)]
    · rw [if_neg h, if_pos (hflip.mpr h)]

/-- Witness for C3 (amended): level-sensor line, `inverted` false versus
true, physical level 1. -/
theorem C3_state_xor_amended_witness :
    ∃ sv1 sv1' : Service,
      pollStep ⟨⟨2, 0, 1, 0, false⟩, some ⟨0, none, some 0, some "Door alarm"⟩, true⟩ 1 =
        some ⟨⟨2, 0, 1, 0, false⟩, some sv1, true⟩ ∧
      pollStep ⟨{ (⟨2, 0, 1, 0, false⟩ : Settings) with invert := !false },
          some ⟨7, none, some 1, some "Door alarm"⟩, true⟩ 1 =
        some ⟨{ (⟨2, 0, 1, 0, false⟩ : Settings) with invert := !false }, some sv1', true⟩ ∧
      sv1.state = some (cond ((1 : Nat) ^^^ cond false 1 0 ≠ 0) 1 0) ∧
      sv1'.state = some (1 - cond ((1 : Nat) ^^^ cond false 1 0 ≠ 0) 1 0) ∧
      sv1.count = (if (1 : Nat) ^^^ cond false 1 0 ≠ 0 then (0 + 1) % MAXCOUNT else 0) ∧
      sv1'.count = (if (1 : Nat) ^^^ cond false 1 0 ≠ 0 then 7 else (7 + 1) % MAXCOUNT) :=
  C3_state_xor_amended ⟨2, 0, 1, 0, false⟩ ⟨0, none, some 0, some "Door alarm"⟩
    ⟨7, none, some 1, some "Door alarm"⟩ true 1 (by decide) (by decide) (by decide) (by decide)

theorem clampedType_eq (t : Nat) :
    clampedType t =
      if t < MAXTYPE then INPUTTYPES.getD t "" else INPUTTYPES.getD (MAXTYPE - 1) "" := by
  have h6 : MAXTYPE = 6 := by decide
  unfold clampedType
  rw [h6]
  by_cases h : t < 6
  · rw [if_pos h, Nat.min_eq_left (by omega)]
  · rw [if_neg h, Nat.min_eq_right (by omega)]

/-- Claim C4: an `inputType` value at or above the catalog size publishes
the catalog's last entry, both at registration and on a runtime `inputtype`
settings change on a level-sensor line; in-range values publish the entry at
that index; an out-of-range value is never rejected (the handler succeeds). -/
theorem C4_type_clamped (s : Settings) (st : LineState) (sv : Service) (nw : Nat)
    (hsv : st.service = some sv) (hty : sv.itype.isSome = true)
    (hne : nw ≠ st.settings.inputtype) :
    (register_gpio INPUT_FUNCTION_INPUT s).itype =
      some (if s.inputtype < MAXTYPE then INPUTTYPES.getD s.inputtype ""
        else INPUTTYPES.getD (MAXTYPE - 1) "") ∧
    ∃ st1 sv1,
      handle_inputtype_change st nw = Except.ok st1 ∧
      st1.service = some sv1 ∧
      sv1.itype = some (if nw < MAXTYPE then INPUTTYPES.getD nw ""
        else INPUTTYPES.getD (MAXTYPE - 1) "") := by
  constructor
  · show (if INPUT_FUNCTION_INPUT = INPUT_FUNCTION_INPUT
        then some (clampedType s.inputtype) else none) = _
    rw [if_pos rfl, clampedType_eq]
  · obtain ⟨x, hx⟩ := Option.isSome_iff_exists.mp hty
    have hstep : handle_inputtype_change st nw =
        Except.ok
          { settings := { st.settings with inputtype := nw }
            service := some { sv with itype := some (clampedType nw) }
            pulsesRegistered := st.pulsesRegistered } := by
      simp [handle_inputtype_change, Service.setItype, hsv, hx, hne]
    exact ⟨_, _, hstep, rfl, by rw [clampedType_eq]⟩

/-- Witness for C4: a level-sensor line with inputtype 0, changed to the
out-of-range value 9; the catalog has 6 entries. -/
theorem C4_type_clamped_witness :
    ((register_gpio INPUT_FUNCTION_INPUT ⟨2, 9, 1, 0, false⟩).itype =
      some (if (9 : Nat) < MAXTYPE then INPUTTYPES.getD 9 ""
        else INPUTTYPES.getD (MAXTYPE - 1) "")) ∧
    ∃ st1 sv1,
      handle_inputtype_change
          ⟨⟨2, 0, 1, 0, false⟩, some ⟨0, none, some 0, some "Door alarm"⟩, true⟩ 9 =
        Except.ok st1 ∧
      st1.service = some sv1 ∧
      sv1.itype = some (if (9 : Nat) < MAXTYPE then INPUTTYPES.getD 9 ""
        else INPUTTYPES.getD (MAXTYPE - 1) "") :=
  C4_type_clamped ⟨2, 9, 1, 0, false⟩
    ⟨⟨2, 0, 1, 0, false⟩, some ⟨0, none, some 0, some "Door alarm"⟩, true⟩
    ⟨0, none, some 0, some "Door alarm"⟩ 9 rfl rfl (by decide)

/-- Claim C5: after startup and after every `function` settings transition
(enable, disable, function switch), a line is registered with the pulse
counter if and only if its function setting is non-disabled and a published
service handle exists for it. -/
theorem C5_registration_invariant (s : Settings) (st : LineState) (nw : Nat)
    (h : RegInv st) :
    RegInv (initLine s) ∧ RegInv (handle_function_change st nw) := by
  constructor
  · simp only [initLine]
    by_cases hf : 0 < s.function
    · rw [if_pos hf]
      unfold RegInv registerLine
      simp
      omega
    · rw [if_neg hf]
      unfold RegInv
      simp
  · simp only [handle_function_change]
    by_cases hnw : nw ≠ 0
    · rw [if_pos hnw]
      by_cases hr : st.pulsesRegistered = true
      · rw [if_pos hr]
        unfold RegInv registerLine unregister_gpio
        simp [hnw]
      · rw [if_neg hr]
        unfold RegInv registerLine
        simp [hnw]
    · rw [if_neg hnw]
      push_neg at hnw
      subst hnw
      by_cases hold : st.settings.function ≠ 0
      · rw [if_pos hold]
        unfold RegInv unregister_gpio
        simp
      · rw [if_neg hold]
        push_neg at hold
        have hr : st.pulsesRegistered ≠ true := fun hr => (h.mp hr).1 hold
        unfold RegInv
        simp [hr]

/-- Witness for C5: a freshly enabled counter line, then disabled. -/
theorem C5_registration_invariant_witness :
    RegInv (initLine ⟨1, 0, 1, 0, false⟩) ∧
    RegInv (handle_function_change (initLine ⟨2, 0, 1, 0, false⟩) 0) :=
  C5_registration_invariant ⟨1, 0, 1, 0, false⟩ (initLine ⟨2, 0, 1, 0, false⟩) 0 (by decide)

/-- Claim C6: an event whose line id has no entry in the services table is
dropped silently by the poll loop: no error is raised and no line's
published state changes. -/
theorem C6_drop_unregistered (sys : Nat → LineState) (inp l : Nat)
    (h : (sys inp).service = none) :
    pollStepSys sys inp l = some sys := by
  have h1 : pollStep (sys inp) l = some (sys inp) := by
    unfold pollStep
    rw [h]
  unfold pollStepSys
  rw [h1]
  show some (fun j => if j = inp then sys inp else sys j) = some sys
  congr 1
  funext j
  by_cases hj : j = inp
  · rw [if_pos hj, hj]
  · rw [if_neg hj]

/-- Witness for C6: a one-line system whose services table is empty. -/
theorem C6_drop_unregistered_witness :
    pollStepSys (fun _ => ⟨⟨1, 0, 1, 0, false⟩, none, false⟩) 1 1 =
      some (fun _ => ⟨⟨1, 0, 1, 0, false⟩, none, false⟩) :=
  C6_drop_unregistered (fun _ => ⟨⟨1, 0, 1, 0, false⟩, none, false⟩) 1 1 rfl

/-- Claim C7: a `function` change between the two non-zero values on a
registered line does a full unregister/re-register: the new service is
exactly the one `register_gpio` builds from the updated settings.  Counter
to level-sensor removes `/Aggregate` and adds `/State` and `/Type`;
switching back removes those and re-creates `/Aggregate` equal to the
persisted count times the rate setting. -/
theorem C7_function_switch (st st' : LineState)
    (hreg : st.pulsesRegistered = true) (_hf : st.settings.function = INPUT_FUNCTION_COUNTER)
    (hreg' : st'.pulsesRegistered = true) (_hf' : st'.settings.function = INPUT_FUNCTION_INPUT) :
    (handle_function_change st INPUT_FUNCTION_INPUT).service =
      some (register_gpio INPUT_FUNCTION_INPUT
        { st.settings with function := INPUT_FUNCTION_INPUT }) ∧
    (register_gpio INPUT_FUNCTION_INPUT
      { st.settings with function := INPUT_FUNCTION_INPUT }).aggregate = none ∧
    (register_gpio INPUT_FUNCTION_INPUT
      { st.settings with function := INPUT_FUNCTION_INPUT }).state =
        some (cond st.settings.invert 1 0) ∧
    (register_gpio INPUT_FUNCTION_INPUT
      { st.settings with function := INPUT_FUNCTION_INPUT }).itype =
        some (clampedType st.settings.inputtype) ∧
    (handle_function_change st' INPUT_FUNCTION_COUNTER).service =
      some (register_gpio INPUT_FUNCTION_COUNTER
        { st'.settings with function := INPUT_FUNCTION_COUNTER }) ∧
    (register_gpio INPUT_FUNCTION_COUNTER
      { st'.settings with function := INPUT_FUNCTION_COUNTER }).state = none ∧
    (register_gpio INPUT_FUNCTION_COUNTER
      { st'.settings with function := INPUT_FUNCTION_COUNTER }).itype = none ∧
    (register_gpio INPUT_FUNCTION_COUNTER
      { st'.settings with function := INPUT_FUNCTION_COUNTER }).aggregate =
        some ((st'.settings.count : Rat) * st'.settings.rate) := by
  refine ⟨?_, by simp [register_gpio, INPUT_FUNCTION_COUNTER, INPUT_FUNCTION_INPUT],
    by simp [register_gpio, INPUT_FUNCTION_COUNTER, INPUT_FUNCTION_INPUT],
    by simp [register_gpio, INPUT_FUNCTION_COUNTER, INPUT_FUNCTION_INPUT],
    ?_, by simp [register_gpio, INPUT_FUNCTION_COUNTER, INPUT_FUNCTION_INPUT],
    by simp [register_gpio, INPUT_FUNCTION_COUNTER, INPUT_FUNCTION_INPUT],
    by simp [register_gpio, INPUT_FUNCTION_COUNTER, INPUT_FUNCTION_INPUT]⟩
  · simp only [handle_function_change]
    rw [if_pos (by decide : INPUT_FUNCTION_INPUT ≠ 0), if_pos hreg]
    rfl
  · simp only [handle_function_change]
    rw [if_pos (by decide : INPUT_FUNCTION_COUNTER ≠ 0), if_pos hreg']
    rfl

/-- Witness for C7: a registered counter line with count 5 and a registered
level-sensor line with count 7. -/
theorem C7_function_switch_witness :
    (handle_function_change ⟨⟨1, 0, 1, 5, false⟩, some ⟨5, some 5, none, none⟩, true⟩
        INPUT_FUNCTION_INPUT).service =
      some (register_gpio INPUT_FUNCTION_INPUT
        { (⟨1, 0, 1, 5, false⟩ : Settings) with function := INPUT_FUNCTION_INPUT }) ∧
    (register_gpio INPUT_FUNCTION_INPUT
      { (⟨1, 0, 1, 5, false⟩ : Settings) with function := INPUT_FUNCTION_INPUT }).aggregate
        = none ∧
    (register_gpio INPUT_FUNCTION_INPUT
      { (⟨1, 0, 1, 5, false⟩ : Settings) with function := INPUT_FUNCTION_INPUT }).state =
        some (cond false 1 0) ∧
    (register_gpio INPUT_FUNCTION_INPUT
      { (⟨1, 0, 1, 5, false⟩ : Settings) with function := INPUT_FUNCTION_INPUT }).itype =
        some (clampedType 0) ∧
    (handle_function_change
        ⟨⟨2, 0, 1, 7, false⟩, some ⟨7, none, some 0, some "Door alarm"⟩, true⟩
        INPUT_FUNCTION_COUNTER).service =
      some (register_gpio INPUT_FUNCTION_COUNTER
        { (⟨2, 0, 1, 7, false⟩ : Settings) with function := INPUT_FUNCTION_COUNTER }) ∧
    (register_gpio INPUT_FUNCTION_COUNTER
      { (⟨2, 0, 1, 7, false⟩ : Settings) with function := INPUT_FUNCTION_COUNTER }).state
        = none ∧
    (register_gpio INPUT_FUNCTION_COUNTER
      { (⟨2, 0, 1, 7, false⟩ : Settings) with function := INPUT_FUNCTION_COUNTER }).itype
        = none ∧
    (register_gpio INPUT_FUNCTION_COUNTER
      { (⟨2, 0, 1, 7, false⟩ : Settings) with function := INPUT_FUNCTION_COUNTER }).aggregate
        = some (((7 : Nat) : Rat) * 1) :=
  C7_function_switch ⟨⟨1, 0, 1, 5, false⟩, some ⟨5, some 5, none, none⟩, true⟩
    ⟨⟨2, 0, 1, 7, false⟩, some ⟨7, none, some 0, some "Door alarm"⟩, true⟩
    rfl rfl rfl rfl

/-- Claim C8: one run of the save routine copies the live `/Count` into the
persisted count setting for exactly the lines whose function setting is
positive; a disabled line's settings are returned unchanged; no setting
other than `count` is ever modified. -/
theorem C8_save_counters (st : LineState) (sv : Service) :
    (st.settings.function = 0 → save_counters_line st = some st.settings) ∧
    (0 < st.settings.function → st.service = some sv →
      save_counters_line st = some { st.settings with count := sv.count }) ∧
    (∀ s1 : Settings, save_counters_line st = some s1 →
      s1.function = st.settings.function ∧ s1.inputtype = st.settings.inputtype ∧
      s1.rate = st.settings.rate ∧ s1.invert = st.settings.invert) := by
  refine ⟨?_, ?_, ?_⟩
  · intro h0
    unfold save_counters_line
    rw [if_neg (by omega)]
  · intro hp hsv
    unfold save_counters_line
    rw [if_pos hp, hsv]
  · intro s1 hs1
    unfold save_counters_line at hs1
    by_cases hp : 0 < st.settings.function
    · rw [if_pos hp] at hs1
      cases hsv : st.service with
      | none => rw [hsv] at hs1; cases hs1
      | some sv2 =>
        rw [hsv] at hs1
        cases hs1
        exact ⟨rfl, rfl, rfl, rfl⟩
    · rw [if_neg hp] at hs1
      cases hs1
      exact ⟨rfl, rfl, rfl, rfl⟩

/-- Witness for C8: a disabled line and an enabled counter line with live
count 9. -/
theorem C8_save_counters_witness :
    ((0 : Nat) = 0 →
      save_counters_line ⟨⟨0, 0, 1, 4, false⟩, none, false⟩ = some ⟨0, 0, 1, 4, false⟩) ∧
    ((0 : Nat) < 1 →
      (⟨⟨1, 0, 1, 4, false⟩, some ⟨9, some 9, none, none⟩, true⟩ : LineState).service =
          some ⟨9, some 9, none, none⟩ →
      save_counters_line ⟨⟨1, 0, 1, 4, false⟩, some ⟨9, some 9, none, none⟩, true⟩ =
        some { (⟨1, 0, 1, 4, false⟩ : Settings) with count := (9 : Nat) }) ∧
    (∀ s1 : Settings,
      save_counters_line ⟨⟨1, 0, 1, 4, false⟩, some ⟨9, some 9, none, none⟩, true⟩ = some s1 →
      s1.function = 1 ∧ s1.inputtype = 0 ∧ s1.rate = 1 ∧ s1.invert = false) :=
  ⟨(C8_save_counters ⟨⟨0, 0, 1, 4, false⟩, none, false⟩ ⟨9, some 9, none, none⟩).1,
    (C8_save_counters ⟨⟨1, 0, 1, 4, false⟩, some ⟨9, some 9, none, none⟩, true⟩
      ⟨9, some 9, none, none⟩).2.1,
    (C8_save_counters ⟨⟨1, 0, 1, 4, false⟩, some ⟨9, some 9, none, none⟩, true⟩
      ⟨9, some 9, none, none⟩).2.2⟩

/-- Counterexample to claim C9: a change of the `rate` (Multiplier) setting
does not recompute `/Aggregate` — the settings-change handler has no branch
for `rate`.  A counter registered with count 5 and rate 2 publishes
`/Aggregate = 10`; after the rate changes to 3 the published `/Aggregate`
is still 10, but count times rate is 15. -/
theorem C9_counterexample :
    (handle_rate_change (initLine ⟨1, 0, 2, 5, false⟩) 3).service.map
        Service.aggregate = some (some 10) ∧
    (handle_rate_change (initLine ⟨1, 0, 2, 5, false⟩) 3).service.map
        Service.count = some 5 ∧
    (handle_rate_change (initLine ⟨1, 0, 2, 5, false⟩) 3).settings.rate = 3 ∧
    (10 : Rat) ≠ (5 : Rat) * 3 := by
  refine ⟨?_, ?_, ?_, ?_⟩
  · norm_num [handle_rate_change, initLine, registerLine, register_gpio,
      INPUT_FUNCTION_COUNTER]
  · decide
  · decide
  · norm_num

/-- Claim C9 (amended): on a counter line, `/Aggregate = /Count * rate` is
established at registration and preserved by every poll-loop event; it is
NOT preserved by a change of the rate setting, which leaves `/Aggregate`
stale until the next rising edge. -/
theorem C9_aggregate_invariant_amended (s : Settings) (st : LineState) (l : Nat)
    (sv : Service) (hsv : st.service = some sv) (hsh : shaped st.settings.function sv)
    (hinv : AggInv st) :
    AggInv (initLine s) ∧ ∃ st1, pollStep st l = some st1 ∧ AggInv st1 := by
  constructor
  · simp only [initLine]
    by_cases hfpos : 0 < s.function
    · rw [if_pos hfpos]
      intro hf1 sv2 hsv2
      simp only [registerLine] at hf1 hsv2 ⊢
      have hsv2' : register_gpio s.function s = sv2 := by
        injection hsv2
      subst hsv2'
      simp [register_gpio, hf1]
    · rw [if_neg hfpos]
      intro _ sv2 hsv2
      cases hsv2
  · obtain ⟨ss, svc, r⟩ := st
    simp only at hsv hsh hinv
    subst hsv
    refine ⟨⟨ss, some (steppedService ss sv l), r⟩, pollStep_eq ss sv r l hsh, ?_⟩
    intro hf1 sv2 hsv2
    simp only at hf1 hsv2
    have hsv2' : steppedService ss sv l = sv2 := by
      injection hsv2
    subst hsv2'
    show (if l ^^^ cond ss.invert 1 0 ≠ 0 ∧ ss.function = INPUT_FUNCTION_COUNTER then
        some ((((sv.count + 1) % MAXCOUNT : Nat) : Rat) * ss.rate)
      else sv.aggregate) = some (((steppedService ss sv l).count : Rat) * ss.rate)
    rw [steppedService_count]
    by_cases hl : l ^^^ cond ss.invert 1 0 ≠ 0
    · rw [if_pos ⟨hl, hf1⟩, if_pos hl]
    · rw [if_neg (fun hx => hl hx.1), if_neg hl]
      exact hinv hf1 sv rfl

/-- Witness for C9 (amended): counter line with count 5 and rate 1,
aggregate 5, receiving a rising event. -/
theorem C9_aggregate_invariant_amended_witness :
    AggInv (initLine ⟨1, 0, 1, 5, false⟩) ∧
    ∃ st1,
      pollStep ⟨⟨1, 0, 1, 5, false⟩, some ⟨5, some 5, none, none⟩, true⟩ 1 = some st1 ∧
      AggInv st1 :=
  C9_aggregate_invariant_amended ⟨1, 0, 1, 5, false⟩
    ⟨⟨1, 0, 1, 5, false⟩, some ⟨5, some 5, none, none⟩, true⟩ 1 ⟨5, some 5, none, none⟩
    rfl (by decide)
    (by
      intro hf sv2 hsv2
      injection hsv2 with h
      subst h
      norm_num)

/-- Claim C10 (implicit): the `inputtype` settings-change handler is only
safe for a line currently registered as a level-sensor.  If the setting
changes to a new value while the line is disabled (no services entry) or
registered as a counter (no `/Type` path), the unguarded lookup raises an
unhandled error instead of updating or ignoring the change. -/
theorem C10_inputtype_change_raises (st st' : LineState) (nw nw' : Nat) (sv : Service)
    (hne : nw ≠ st.settings.inputtype) (hnone : st.service = none)
    (hne' : nw' ≠ st'.settings.inputtype) (hsv : st'.service = some sv)
    (hnoty : sv.itype = none) :
    (∃ e, handle_inputtype_change st nw = Except.error e) ∧
    (∃ e, handle_inputtype_change st' nw' = Except.error e) := by
  constructor
  · refine ⟨"KeyError: services[inp]", ?_⟩
    simp [handle_inputtype_change, hne, hnone]
  · refine ⟨"KeyError: /Type", ?_⟩
    simp [handle_inputtype_change, Service.setItype, hne', hsv, hnoty]

/-- Witness for C10: a disabled line and a registered counter line, each
with the inputtype setting changed to 3. -/
theorem C10_inputtype_change_raises_witness :
    (∃ e, handle_inputtype_change ⟨⟨0, 0, 1, 0, false⟩, none, false⟩ 3 = Except.error e) ∧
    (∃ e, handle_inputtype_change ⟨⟨1, 0, 1, 5, false⟩, some ⟨5, some 5, none, none⟩, true⟩ 3 =
      Except.error e) :=
  C10_inputtype_change_raises ⟨⟨0, 0, 1, 0, false⟩, none, false⟩
    ⟨⟨1, 0, 1, 5, false⟩, some ⟨5, some 5, none, none⟩, true⟩ 3 3 ⟨5, some 5, none, none⟩
    (by decide) rfl (by decide) rfl rfl
